import Mathlib

/-!
Verification development for the marketing-server quota ledger and
message delivery state machine.

The definitions below are a shallow embedding of the JavaScript source:

* `src/models/Quota.js` — the quota ledger (buckets, status classification,
  `hasQuotaAvailable`, `consumeQuota`, `resetAllQuotas`, `updatePlan`,
  `createForUser`);
* `src/models/ApiKey.js` (second schema in the file, the Email model) and
  `src/unnamed/part_002` (the SMS model) — the delivery state machine
  (`markAsSent`, `markAsOpened`, `markAsClicked`, `markAsFailed`);
* `src/unnamed/part_010` (`POST /api/emails/send`, `POST /:id/track/open`)
  and `src/routes/auth.js` (`POST /api/sms/send`) — the send pipeline.

JavaScript numbers that are only ever used as counters/limits are embedded
as `Nat`; timestamps (millisecond epochs produced by `Date.now()`) as `Nat`;
the floating-point usage percentage `used / limit * 100` as the exact
rational `ℚ` value of the same expression.  Mongoose documents become
immutable structures, method calls become functions returning the updated
structure, and a thrown exception becomes `Except.error`.
-/

namespace MarketingServer

/-- The three quota bucket identifiers of `Quota.js` (`email`, `sms`, `api`). -/
inductive QuotaType where
  | email
  | sms
  | api
deriving DecidableEq, Repr

/-- The `status` enum of the quota schema:
`['normal', 'warning', 'critical', 'exceeded']`. -/
inductive QStatus where
  | normal
  | warning
  | critical
  | exceeded
deriving DecidableEq, Fintype, Repr

/-- The `plan` enum of the quota schema: `['free', 'starter', 'professional']`. -/
inductive Plan where
  | free
  | starter
  | professional
deriving DecidableEq, Repr

/-- One resource bucket of the quota schema: `{ used, limit, resetDate }`.
`resetDate` is a millisecond epoch timestamp. -/
structure QuotaBucket where
  used : Nat
  limit : Nat
  resetDate : Nat
deriving DecidableEq, Repr

/-- The `newLimits` argument of `updatePlan` (and the rows of the
`planLimits` table in `createForUser`): one limit per bucket. -/
structure PlanLimits where
  email : Nat
  sms : Nat
  api : Nat
deriving DecidableEq, Repr

/-- The quota ledger document of `Quota.js` (fields relevant to the core
logic; `userId` is omitted since every operation acts on a single ledger). -/
structure Quota where
  plan : Plan
  email : QuotaBucket
  sms : QuotaBucket
  api : QuotaBucket
  status : QStatus
  lastUpdated : Nat
deriving DecidableEq, Repr

/-- `this[type]` — field access by bucket name. -/
def Quota.get (q : Quota) : QuotaType → QuotaBucket
  | .email => q.email
  | .sms => q.sms
  | .api => q.api

/-- `this[type].used += amount` — the in-place increment inside
`consumeQuota`, as a functional update of the named bucket. -/
def Quota.addUsed (q : Quota) (t : QuotaType) (amount : Nat) : Quota :=
  match t with
  | .email => { q with email := { q.email with used := q.email.used + amount } }
  | .sms => { q with sms := { q.sms with used := q.sms.used + amount } }
  | .api => { q with api := { q.api with used := q.api.used + amount } }

/-- `30 * 24 * 60 * 60 * 1000` — the 30-day rolling window in milliseconds,
used for every `resetDate`. -/
def thirtyDaysMs : Nat := 30 * 24 * 60 * 60 * 1000

/-- `getQuotaStatus(type)` from `Quota.js`:
`percentage = quota.limit > 0 ? (quota.used / quota.limit) * 100 : 0`,
then thresholds `>= 100 → exceeded`, `>= 90 → critical`, `>= 75 → warning`,
else `normal`.  The float expression is embedded as the exact rational. -/
def getQuotaStatus (q : Quota) (t : QuotaType) : QStatus :=
  let quota := q.get t
  let percentage : ℚ :=
    if quota.limit > 0 then ((quota.used : ℚ) / (quota.limit : ℚ)) * 100 else 0
  if percentage ≥ 100 then .exceeded
  else if percentage ≥ 90 then .critical
  else if percentage ≥ 75 then .warning
  else .normal

/-- The `overallStatus` virtual of `Quota.js`: cascading checks for
`exceeded`, then `critical`, then `warning` across the three buckets. -/
def overallStatus (q : Quota) : QStatus :=
  let emailStatus := getQuotaStatus q .email
  let smsStatus := getQuotaStatus q .sms
  let apiStatus := getQuotaStatus q .api
  if emailStatus = .exceeded ∨ smsStatus = .exceeded ∨ apiStatus = .exceeded then
    .exceeded
  else if emailStatus = .critical ∨ smsStatus = .critical ∨ apiStatus = .critical then
    .critical
  else if emailStatus = .warning ∨ smsStatus = .warning ∨ apiStatus = .warning then
    .warning
  else
    .normal

/-- `hasQuotaAvailable(type, amount = 1)` from `Quota.js`:
`(quota.used + amount) <= quota.limit`. -/
def hasQuotaAvailable (q : Quota) (t : QuotaType) (amount : Nat := 1) : Bool :=
  decide ((q.get t).used + amount ≤ (q.get t).limit)

/-- The `${type}` interpolation in the error message of `consumeQuota`. -/
def QuotaType.name : QuotaType → String
  | .email => "email"
  | .sms => "sms"
  | .api => "api"

/-- `consumeQuota(type, amount = 1)` from `Quota.js`: throws
`Insufficient ${type} quota` when `hasQuotaAvailable` is false, otherwise
increments `used`, stamps `lastUpdated`, recomputes `status` from
`overallStatus` (on the already-incremented document), and saves.
`now` is the `new Date()` timestamp taken inside the method. -/
def consumeQuota (q : Quota) (t : QuotaType) (now : Nat) (amount : Nat := 1) :
    Except String Quota :=
  if hasQuotaAvailable q t amount = false then
    .error ("Insufficient " ++ t.name ++ " quota")
  else
    let q1 : Quota := { q.addUsed t amount with lastUpdated := now }
    .ok { q1 with status := overallStatus q1 }

/-- `resetAllQuotas()` from `Quota.js`: zero every `used`, push every
`resetDate` 30 days past `now`, set `status = 'normal'`, stamp
`lastUpdated`. -/
def resetAllQuotas (q : Quota) (now : Nat) : Quota :=
  { q with
    email := { q.email with used := 0, resetDate := now + thirtyDaysMs }
    sms := { q.sms with used := 0, resetDate := now + thirtyDaysMs }
    api := { q.api with used := 0, resetDate := now + thirtyDaysMs }
    status := .normal
    lastUpdated := now }

/-- `updatePlan(newPlan, newLimits)` from `Quota.js`: set `plan`, overwrite
the three `limit` fields, then run `resetAllQuotas()`. -/
def updatePlan (q : Quota) (newPlan : Plan) (newLimits : PlanLimits) (now : Nat) :
    Quota :=
  resetAllQuotas
    { q with
      plan := newPlan
      email := { q.email with limit := newLimits.email }
      sms := { q.sms with limit := newLimits.sms }
      api := { q.api with limit := newLimits.api } }
    now

/-- The `planLimits` table inside `createForUser`. -/
def planLimits : Plan → PlanLimits
  | .free => ⟨2000, 0, 10000⟩
  | .starter => ⟨5000, 1000, 50000⟩
  | .professional => ⟨25000, 5000, 200000⟩

/-- `createForUser(userId, plan = 'free')` from `Quota.js`: a fresh ledger
with plan-derived limits; `used` defaults to 0, `status` to `'normal'`,
each `resetDate` to 30 days from creation. -/
def createForUser (plan : Plan) (now : Nat) : Quota :=
  let limits := planLimits plan
  { plan := plan
    email := { used := 0, limit := limits.email, resetDate := now + thirtyDaysMs }
    sms := { used := 0, limit := limits.sms, resetDate := now + thirtyDaysMs }
    api := { used := 0, limit := limits.api, resetDate := now + thirtyDaysMs }
    status := .normal
    lastUpdated := now }

/-- A sequence of `consumeQuota` calls against one ledger, as issued by the
route handlers: a rejected call (the thrown exception) leaves the ledger as
it was, a successful call replaces it. -/
def consumeTrace (q : Quota) (ops : List (QuotaType × Nat × Nat)) : Quota :=
  ops.foldl
    (fun s op =>
      match consumeQuota s op.1 op.2.2 op.2.1 with
      | .ok s2 => s2
      | .error _ => s)
    q

/-! ### Spec-side classification (for the refinement claim C4)

These two definitions follow the words of spec §4.1 (`classify` and the
severity order for `overallStatus`), to be compared with the source-derived
`getQuotaStatus` and `overallStatus` above. -/

/-- Severity rank of a status, following the spec's order
`normal < warning < critical < exceeded`. -/
def severity : QStatus → Nat
  | .normal => 0
  | .warning => 1
  | .critical => 2
  | .exceeded => 3

/-- The higher-severity of two statuses (spec §4.1). -/
def maxSeverity (a b : QStatus) : QStatus :=
  if severity a ≤ severity b then b else a

/-- The worst (highest-severity) of the three per-bucket statuses
(spec §4.1's description of `overallStatus`). -/
def worstStatus (a b c : QStatus) : QStatus :=
  maxSeverity (maxSeverity a b) c

/-- Spec §4.1 `classify(type)`: `percentage = used/limit × 100`
(`limit=0 ⇒ percentage=0`); thresholds `≥100 → exceeded`, `≥90 → critical`,
`≥75 → warning`, else `normal`. -/
def specClassify (b : QuotaBucket) : QStatus :=
  let percentage : ℚ :=
    if b.limit = 0 then 0 else ((b.used : ℚ) / (b.limit : ℚ)) * 100
  if percentage ≥ 100 then .exceeded
  else if percentage ≥ 90 then .critical
  else if percentage ≥ 75 then .warning
  else .normal

/-! ### The concurrency model of `consumeQuota` (claim C3)

In the route handlers the ledger document is loaded with `Quota.findOne`,
`consumeQuota` checks `hasQuotaAvailable` against that in-memory snapshot,
increments the in-memory `used`, and `save()` writes the modified field
back unconditionally.  With respect to a second concurrent request on the
same ledger, one `consumeQuota(type, 1)` call is therefore two separate
steps on the shared document: a read (take the snapshot) and a write
(check the snapshot and, if it passes, store `snapshot.used + 1`).
`RaceState` is the shared document plus the two requests' local state, and
`raceStep` executes one such step for one of two concurrent requests. -/

/-- Shared ledger counter plus per-request snapshot and outcome for two
concurrent `consumeQuota(type, 1)` calls on the same bucket. -/
structure RaceState where
  used : Nat
  snap1 : Option Nat
  snap2 : Option Nat
  res1 : Option Bool
  res2 : Option Bool
deriving DecidableEq, Repr

/-- One atomic step of one of the two concurrent requests: its document
read (`findOne` snapshot) or its check-and-write (`hasQuotaAvailable` on
the snapshot, then `used += 1` and `save()`). -/
inductive RaceStep where
  | read1
  | write1
  | read2
  | write2
deriving DecidableEq, Repr

/-- Execute one step against the shared bucket with ceiling `limit`.
A write before the request's read does nothing (the request has not
started); the check is `snapshot + 1 ≤ limit`, exactly
`hasQuotaAvailable(type, 1)` evaluated on the stale snapshot. -/
def raceStep (limit : Nat) (s : RaceState) : RaceStep → RaceState
  | .read1 => { s with snap1 := some s.used }
  | .read2 => { s with snap2 := some s.used }
  | .write1 =>
    match s.snap1 with
    | none => s
    | some u =>
      if u + 1 ≤ limit then { s with used := u + 1, res1 := some true }
      else { s with res1 := some false }
  | .write2 =>
    match s.snap2 with
    | none => s
    | some u =>
      if u + 1 ≤ limit then { s with used := u + 1, res2 := some true }
      else { s with res2 := some false }

/-- Run an interleaving of the two requests' steps from an initial counter. -/
def runRace (limit init : Nat) (sched : List RaceStep) : RaceState :=
  sched.foldl (raceStep limit) ⟨init, none, none, none, none⟩

/-! ### The Email delivery state machine (`Email` schema in `src/models/ApiKey.js`) -/

/-- The email `status` enum:
`['pending', 'sent', 'delivered', 'opened', 'clicked', 'bounced', 'failed']`. -/
inductive EmailStatus where
  | pending
  | sent
  | delivered
  | opened
  | clicked
  | bounced
  | failed
deriving DecidableEq, Repr

/-- The email `tracking` sub-document: open/click counters and
last-open/last-click timestamps.  (It has no provider-message-id field.) -/
structure EmailTracking where
  openCount : Nat
  clickCount : Nat
  lastOpened : Option Nat
  lastClicked : Option Nat
deriving DecidableEq, Repr

/-- The Email document (fields relevant to the state machine). -/
structure Email where
  «to» : String
  subject : String
  html : String
  status : EmailStatus
  sentAt : Option Nat
  deliveredAt : Option Nat
  openedAt : Option Nat
  clickedAt : Option Nat
  bounceReason : Option String
  errorMessage : Option String
  tracking : EmailTracking
deriving DecidableEq, Repr

/-- `markAsSent()` on the Email model: sets `status = 'sent'` and
`sentAt = new Date()`.  It takes no argument and touches no other field. -/
def Email.markAsSent (e : Email) (now : Nat) : Email :=
  { e with status := .sent, sentAt := some now }

/-- `markAsDelivered()` on the Email model. -/
def Email.markAsDelivered (e : Email) (now : Nat) : Email :=
  { e with status := .delivered, deliveredAt := some now }

/-- `markAsOpened()` on the Email model: unconditionally sets
`status = 'opened'`, stamps `openedAt`, increments `tracking.openCount`,
updates `tracking.lastOpened`. -/
def Email.markAsOpened (e : Email) (now : Nat) : Email :=
  { e with
    status := .opened
    openedAt := some now
    tracking := { e.tracking with
      openCount := e.tracking.openCount + 1
      lastOpened := some now } }

/-- `markAsClicked()` on the Email model: unconditionally sets
`status = 'clicked'`, stamps `clickedAt`, increments `tracking.clickCount`,
updates `tracking.lastClicked`. -/
def Email.markAsClicked (e : Email) (now : Nat) : Email :=
  { e with
    status := .clicked
    clickedAt := some now
    tracking := { e.tracking with
      clickCount := e.tracking.clickCount + 1
      lastClicked := some now } }

/-- `markAsFailed(error)` on the Email model. -/
def Email.markAsFailed (e : Email) (error : String) : Email :=
  { e with status := .failed, errorMessage := some error }

/-- `POST /api/emails/:id/track/open` (`src/unnamed/part_010`): after the
lookup succeeds, the handler calls `markAsOpened()` with no check on the
email's current status and responds with the tracking pixel (HTTP 200). -/
def trackOpenRoute (e : Email) (now : Nat) : Email × Nat :=
  (e.markAsOpened now, 200)

/-! ### The SMS delivery state machine (`src/unnamed/part_002`) -/

/-- The SMS `status` enum:
`['pending', 'sent', 'delivered', 'failed', 'undelivered']`. -/
inductive SmsStatus where
  | pending
  | sent
  | delivered
  | failed
  | undelivered
deriving DecidableEq, Repr

/-- The SMS `tracking` sub-document: provider message id and SID. -/
structure SmsTracking where
  messageId : Option String
  sid : Option String
deriving DecidableEq, Repr

/-- The SMS document (fields relevant to the state machine). -/
structure Sms where
  «to» : String
  message : String
  status : SmsStatus
  sentAt : Option Nat
  deliveredAt : Option Nat
  errorMessage : Option String
  errorCode : Option String
  tracking : SmsTracking
deriving DecidableEq, Repr

/-- `markAsSent(messageId, sid)` on the SMS model: sets `status = 'sent'`,
stamps `sentAt`, and records the provider-assigned `tracking.messageId`
and `tracking.sid`. -/
def Sms.markAsSent (s : Sms) (messageId sid : String) (now : Nat) : Sms :=
  { s with
    status := .sent
    sentAt := some now
    tracking := { messageId := some messageId, sid := some sid } }

/-- `markAsFailed(error, errorCode)` on the SMS model. -/
def Sms.markAsFailed (s : Sms) (error errorCode : String) : Sms :=
  { s with status := .failed, errorMessage := some error, errorCode := some errorCode }

/-! ### The email send pipeline (`POST /api/emails/send`, `src/unnamed/part_010`) -/

/-- The validated request body of `POST /api/emails/send`. -/
structure SendReq where
  «to» : String
  subject : String
  html : String
deriving DecidableEq, Repr

/-- `Email.create({...})` in the send handler: a fresh document in the
schema-default `pending` state with zeroed tracking counters. -/
def mkPendingEmail (req : SendReq) : Email :=
  { «to» := req.«to»
    subject := req.subject
    html := req.html
    status := .pending
    sentAt := none
    deliveredAt := none
    openedAt := none
    clickedAt := none
    bounceReason := none
    errorMessage := none
    tracking := { openCount := 0, clickCount := 0, lastOpened := none, lastClicked := none } }

/-- The HTTP outcome of the send handler: `created` is the 201 success
response, `quotaExceeded` the 429 rejection, `providerFailed` the 500
response after a provider error, `serverError` the outer catch-all 500. -/
inductive SendOutcome where
  | created
  | quotaExceeded
  | providerFailed
  | serverError
deriving DecidableEq, Repr

/-- The immediate-send path of `POST /api/emails/send` (no `scheduledAt` in
the request, so the provider is invoked synchronously), acting on the
caller's ledger and the store of Email documents:

1. `hasQuotaAvailable('email')` — on failure respond 429 with nothing
   created and nothing consumed;
2. `Email.create` the pending document;
3. `consumeQuota('email')` — a throw here reaches the outer catch (500)
   with the document already created;
4. call the provider: on success `markAsSent()` and respond 201, on error
   `markAsFailed(error.message)` and respond 500.

`providerOk` abstracts the external provider's synchronous result and
`errMsg` the provider error's `message`. -/
def sendEmailRoute (quota : Quota) (msgs : List Email) (req : SendReq)
    (providerOk : Bool) (errMsg : String) (now : Nat) :
    SendOutcome × Quota × List Email :=
  if hasQuotaAvailable quota .email 1 = false then
    (.quotaExceeded, quota, msgs)
  else
    let email := mkPendingEmail req
    match consumeQuota quota .email now 1 with
    | .error _ => (.serverError, quota, msgs ++ [email])
    | .ok quota2 =>
      if providerOk then
        (.created, quota2, msgs ++ [email.markAsSent now])
      else
        (.providerFailed, quota2, msgs ++ [email.markAsFailed errMsg])

/-! ### Concrete documents used in the scenario claims, and a proof-side
characterization of the classification -/

/-- Integer-arithmetic characterization of the bucket classification,
used to evaluate `getQuotaStatus` in proofs (it avoids the rational
division, which the kernel cannot reduce). -/
def classifyChar (b : QuotaBucket) : QStatus :=
  if b.limit = 0 then .normal
  else if 100 * b.limit ≤ b.used * 100 then .exceeded
  else if 90 * b.limit ≤ b.used * 100 then .critical
  else if 75 * b.limit ≤ b.used * 100 then .warning
  else .normal

/-- A concrete valid send request. -/
def req0 : SendReq :=
  { «to» := "user@example.com", subject := "hello", html := "<p>hi</p>" }

/-- A freshly created Email document for `req0`, in the schema-default
`pending` state. -/
def pendingEmail0 : Email := mkPendingEmail req0

/-- A free-plan ledger with 1999 of 2000 email units used (the starting
state of end-to-end scenario 1). -/
def qFree1999 : Quota :=
  { plan := .free
    email := { used := 1999, limit := 2000, resetDate := thirtyDaysMs }
    sms := { used := 0, limit := 0, resetDate := thirtyDaysMs }
    api := { used := 0, limit := 10000, resetDate := thirtyDaysMs }
    status := .critical
    lastUpdated := 0 }

/-- The ledger after the first send of scenario 1: email bucket full,
overall status `exceeded`. -/
def qFree2000 : Quota :=
  { plan := .free
    email := { used := 2000, limit := 2000, resetDate := thirtyDaysMs }
    sms := { used := 0, limit := 0, resetDate := thirtyDaysMs }
    api := { used := 0, limit := 10000, resetDate := thirtyDaysMs }
    status := .exceeded
    lastUpdated := 9 }

/-! ## Helper lemmas -/

/-- Threshold comparisons of the rational usage percentage reduce to
products of the natural counters. -/
theorem percent_threshold (u l T : ℕ) (hl : 0 < l) :
    ((u : ℚ) / (l : ℚ) * 100 ≥ (T : ℚ)) ↔ T * l ≤ u * 100 := by
  have hl2 : (0 : ℚ) < l := by exact_mod_cast hl
  rw [ge_iff_le, div_mul_eq_mul_div, le_div_iff₀ hl2]
  exact_mod_cast Iff.rfl

theorem getQuotaStatus_char (q : Quota) (t : QuotaType) :
    getQuotaStatus q t = classifyChar (q.get t) := by
  unfold getQuotaStatus classifyChar
  rcases Nat.eq_zero_or_pos (q.get t).limit with h | h
  · simp only [h, lt_irrefl, if_false, if_true]
    norm_num
  · have h0 : ¬ (q.get t).limit = 0 := Nat.pos_iff_ne_zero.mp h
    have e100 := percent_threshold (q.get t).used (q.get t).limit 100 h
    have e90 := percent_threshold (q.get t).used (q.get t).limit 90 h
    have e75 := percent_threshold (q.get t).used (q.get t).limit 75 h
    simp only [Nat.cast_ofNat, ge_iff_le] at e100 e90 e75
    simp only [h, if_pos h, h0, if_false, if_true, ge_iff_le, e100, e90, e75]

/-- The spec-side `specClassify` satisfies the same characterization. -/
theorem specClassify_char (b : QuotaBucket) :
    specClassify b = classifyChar b := by
  unfold specClassify classifyChar
  rcases Nat.eq_zero_or_pos b.limit with h | h
  · simp only [h, if_true]
    norm_num
  · have h0 : ¬ b.limit = 0 := Nat.pos_iff_ne_zero.mp h
    have e100 := percent_threshold b.used b.limit 100 h
    have e90 := percent_threshold b.used b.limit 90 h
    have e75 := percent_threshold b.used b.limit 75 h
    simp only [Nat.cast_ofNat, ge_iff_le] at e100 e90 e75
    simp only [h0, if_false, if_true, ge_iff_le, e100, e90, e75]

theorem Quota.get_setStatusLastUpdated (q : Quota) (s : QStatus) (n : Nat)
    (t : QuotaType) :
    ({ q with status := s, lastUpdated := n } : Quota).get t = q.get t := by
  cases t <;> rfl

theorem Quota.get_setStatus (q : Quota) (s : QStatus) (t : QuotaType) :
    ({ q with status := s } : Quota).get t = q.get t := by
  cases t <;> rfl

theorem Quota.get_setLastUpdated (q : Quota) (n : Nat) (t : QuotaType) :
    ({ q with lastUpdated := n } : Quota).get t = q.get t := by
  cases t <;> rfl

theorem Quota.get_addUsed_self (q : Quota) (t : QuotaType) (n : Nat) :
    (q.addUsed t n).get t =
      { q.get t with used := (q.get t).used + n } := by
  cases t <;> rfl

theorem Quota.limit_addUsed (q : Quota) (t t2 : QuotaType) (n : Nat) :
    ((q.addUsed t n).get t2).limit = (q.get t2).limit := by
  cases t <;> cases t2 <;> rfl

theorem getQuotaStatus_congr {q q2 : Quota} (t : QuotaType)
    (h : q.get t = q2.get t) : getQuotaStatus q t = getQuotaStatus q2 t := by
  unfold getQuotaStatus
  rw [h]

theorem overallStatus_congr {q q2 : Quota} (h : ∀ t, q.get t = q2.get t) :
    overallStatus q = overallStatus q2 := by
  unfold overallStatus
  rw [getQuotaStatus_congr .email (h .email), getQuotaStatus_congr .sms (h .sms),
    getQuotaStatus_congr .api (h .api)]

/-- The cascading conditionals of `overallStatus` compute exactly the
highest-severity status, checked over all 64 triples. -/
theorem cascade_eq_worst (a b c : QStatus) :
    (if a = .exceeded ∨ b = .exceeded ∨ c = .exceeded then QStatus.exceeded
     else if a = .critical ∨ b = .critical ∨ c = .critical then .critical
     else if a = .warning ∨ b = .warning ∨ c = .warning then .warning
     else .normal) = worstStatus a b c := by
  revert a b c
  decide

theorem overallStatus_eq_worst (q : Quota) :
    overallStatus q =
      worstStatus (getQuotaStatus q .email) (getQuotaStatus q .sms)
        (getQuotaStatus q .api) :=
  cascade_eq_worst _ _ _

/-- Unfolding of a successful `consumeQuota` call. -/
theorem consumeQuota_ok (q : Quota) (t : QuotaType) (now amount : Nat)
    (h : hasQuotaAvailable q t amount = true) :
    consumeQuota q t now amount =
      .ok { q.addUsed t amount with
            lastUpdated := now
            status :=
              overallStatus { q.addUsed t amount with lastUpdated := now } } := by
  unfold consumeQuota
  rw [h]
  rfl

/-- Unfolding of a rejected `consumeQuota` call. -/
theorem consumeQuota_err (q : Quota) (t : QuotaType) (now amount : Nat)
    (h : hasQuotaAvailable q t amount = false) :
    consumeQuota q t now amount = .error ("Insufficient " ++ t.name ++ " quota") := by
  unfold consumeQuota
  rw [h]
  rfl

/-- Kernel-computable form of `overallStatus`. -/
theorem overallStatus_char (q : Quota) :
    overallStatus q =
      worstStatus (classifyChar (q.get .email)) (classifyChar (q.get .sms))
        (classifyChar (q.get .api)) := by
  rw [overallStatus_eq_worst, getQuotaStatus_char, getQuotaStatus_char,
    getQuotaStatus_char]

theorem hasQuotaAvailable_true_iff (q : Quota) (t : QuotaType) (amount : Nat) :
    hasQuotaAvailable q t amount = true ↔
      (q.get t).used + amount ≤ (q.get t).limit := by
  simp [hasQuotaAvailable]

theorem hasQuotaAvailable_false_iff (q : Quota) (t : QuotaType) (amount : Nat) :
    hasQuotaAvailable q t amount = false ↔
      (q.get t).limit < (q.get t).used + amount := by
  simp [hasQuotaAvailable]

/-! ## Claim theorems -/

/-- C1: `consumeQuota(type, amount)` fails with the quota-exceeded error
and returns no mutated ledger exactly when `used + amount > limit`; when it
succeeds it increments `used[type]` by `amount` (leaving the limit alone)
and recomputes `status` from the mutated buckets; and `hasQuotaAvailable`
is true iff the immediately following `consumeQuota` with the same
arguments succeeds. -/
theorem consume_check_commit_consistent (q : Quota) (t : QuotaType)
    (amount now : Nat) :
    ((q.get t).limit < (q.get t).used + amount →
        consumeQuota q t now amount =
          .error ("Insufficient " ++ t.name ++ " quota")) ∧
    ((q.get t).used + amount ≤ (q.get t).limit →
        ∃ q2, consumeQuota q t now amount = .ok q2 ∧
          (q2.get t).used = (q.get t).used + amount ∧
          (q2.get t).limit = (q.get t).limit ∧
          q2.status = overallStatus q2 ∧
          q2.lastUpdated = now) ∧
    (hasQuotaAvailable q t amount = true ↔
      (consumeQuota q t now amount).isOk = true) := by
  refine ⟨?_, ?_, ?_⟩
  · intro h
    exact consumeQuota_err q t now amount ((hasQuotaAvailable_false_iff q t amount).mpr h)
  · intro h
    have hav : hasQuotaAvailable q t amount = true :=
      (hasQuotaAvailable_true_iff q t amount).mpr h
    refine ⟨_, consumeQuota_ok q t now amount hav, ?_, ?_, ?_, rfl⟩
    · rw [Quota.get_setStatusLastUpdated, Quota.get_addUsed_self]
    · rw [Quota.get_setStatusLastUpdated, Quota.get_addUsed_self]
    · show overallStatus _ = _
      refine (overallStatus_congr ?_).symm
      intro t2
      cases t2 <;> rfl
  · constructor
    · intro h
      rw [consumeQuota_ok q t now amount h]
      rfl
    · intro h
      by_contra hne
      have hfalse : hasQuotaAvailable q t amount = false := by
        cases hb : hasQuotaAvailable q t amount
        · rfl
        · exact absurd hb hne
      rw [consumeQuota_err q t now amount hfalse] at h
      exact Bool.false_ne_true h

/-- C1 witness: on a fresh free-plan ledger, one email unit is available
and the consume call succeeds as described. -/
theorem consume_check_commit_consistent_witness :
    ((createForUser .free 0).get .email).used + 1 ≤
        ((createForUser .free 0).get .email).limit ∧
    (∃ q2, consumeQuota (createForUser .free 0) .email 5 1 = .ok q2 ∧
      (q2.get .email).used = ((createForUser .free 0).get .email).used + 1 ∧
      (q2.get .email).limit = ((createForUser .free 0).get .email).limit ∧
      q2.status = overallStatus q2 ∧
      q2.lastUpdated = 5) :=
  ⟨by decide,
    (consume_check_commit_consistent (createForUser .free 0) .email 1 5).2.1
      (by decide)⟩

/-- C2: starting from any ledger state and after any sequence of
`consumeQuota` calls, every further successful `consumeQuota` leaves
`used ≤ limit` in the consumed bucket, and a call that is rejected mutates
nothing: extending the call sequence by it leaves the ledger exactly as it
was. -/
theorem consume_preserves_used_le_limit (q : Quota)
    (ops : List (QuotaType × Nat × Nat)) (t : QuotaType) (amount now : Nat) :
    (∀ q2, consumeQuota (consumeTrace q ops) t now amount = .ok q2 →
        (q2.get t).used ≤ (q2.get t).limit) ∧
    (∀ e, consumeQuota (consumeTrace q ops) t now amount = .error e →
        consumeTrace q (ops ++ [(t, amount, now)]) = consumeTrace q ops) := by
  constructor
  · intro q2 hq2
    have hav : hasQuotaAvailable (consumeTrace q ops) t amount = true := by
      cases hb : hasQuotaAvailable (consumeTrace q ops) t amount
      · rw [consumeQuota_err _ _ _ _ hb] at hq2
        exact absurd hq2 (by simp)
      · rfl
    have hle := (hasQuotaAvailable_true_iff _ t amount).mp hav
    rw [consumeQuota_ok _ _ _ _ hav] at hq2
    have hq2e := (Except.ok.injEq _ _ ).mp hq2.symm
    subst hq2e
    rw [Quota.get_setStatusLastUpdated, Quota.get_addUsed_self]
    exact hle
  · intro e he
    show List.foldl _ q (ops ++ [(t, amount, now)]) = _
    rw [List.foldl_append]
    show (match consumeQuota (consumeTrace q ops) t now amount with
          | .ok s2 => s2
          | .error _ => consumeTrace q ops) = consumeTrace q ops
    rw [he]

/-- C2 witness: a successful consume on a fresh starter-plan ledger after
an empty call sequence keeps the SMS bucket within its limit. -/
theorem consume_preserves_used_le_limit_witness :
    ∃ q2, consumeQuota (consumeTrace (createForUser .starter 0) []) .sms 2 1 = .ok q2 ∧
      (q2.get .sms).used ≤ (q2.get .sms).limit := by
  obtain ⟨q2, hq2, _, _, _, _⟩ :=
    (consume_check_commit_consistent (consumeTrace (createForUser .starter 0) [])
      .sms 1 2).2.1 (by decide)
  exact ⟨q2,  hq2,
    (consume_preserves_used_le_limit (createForUser .starter 0) [] .sms 1 2).1 q2 hq2⟩

/-- C10: a bucket whose `limit` is 0 is always classified `normal` (its
usage percentage is defined to be 0), yet `hasQuotaAvailable` is false and
`consumeQuota` fails for every amount ≥ 1; the free plan's SMS bucket as
created by `createForUser` is such a bucket. -/
theorem zero_limit_bucket_normal_but_unconsumable (q : Quota) (t : QuotaType)
    (amount now now2 : Nat) (hlim : (q.get t).limit = 0) (hamt : 1 ≤ amount) :
    getQuotaStatus q t = .normal ∧
    hasQuotaAvailable q t amount = false ∧
    consumeQuota q t now amount =
      .error ("Insufficient " ++ t.name ++ " quota") ∧
    ((createForUser .free now2).get .sms).limit = 0 := by
  have hfalse : hasQuotaAvailable q t amount = false := by
    rw [hasQuotaAvailable_false_iff, hlim]
    omega
  refine ⟨?_, hfalse, consumeQuota_err q t now amount hfalse, rfl⟩
  rw [getQuotaStatus_char]
  unfold classifyChar
  rw [hlim]
  rfl

/-- C10 witness: the SMS bucket of a fresh free-plan ledger (limit 0,
used 0) reports `normal` while rejecting a one-unit consume. -/
theorem zero_limit_bucket_normal_but_unconsumable_witness :
    ((createForUser .free 0).get .sms).limit = 0 ∧ 1 ≤ 1 ∧
    (getQuotaStatus (createForUser .free 0) .sms = .normal ∧
      hasQuotaAvailable (createForUser .free 0) .sms 1 = false ∧
      consumeQuota (createForUser .free 0) .sms 3 1 =
        .error ("Insufficient " ++ QuotaType.name .sms ++ " quota") ∧
      ((createForUser .free 4).get .sms).limit = 0) :=
  ⟨by decide, by decide,
    zero_limit_bucket_normal_but_unconsumable (createForUser .free 0) .sms 1 3 4
      (by decide) (by decide)⟩

/-- C4: per-bucket classification follows the spec's percentage thresholds
(with a zero-limit bucket pinned at percentage 0, status `normal`), and the
ledger-level `overallStatus` is the highest-severity of the three bucket
statuses under the order `normal < warning < critical < exceeded`. -/
theorem classification_matches_spec (q : Quota) (t : QuotaType) :
    getQuotaStatus q t = specClassify (q.get t) ∧
    overallStatus q =
      worstStatus (getQuotaStatus q .email) (getQuotaStatus q .sms)
        (getQuotaStatus q .api) :=
  ⟨by rw [getQuotaStatus_char, specClassify_char], overallStatus_eq_worst q⟩

/-- C5: `resetAllQuotas` zeroes all three `used` counters, sets the status
to `normal` and advances every `resetDate` 30 days past the reset time,
whatever the prior state; `updatePlan` installs the new plan and limits and
then resets, so usage does not carry over — in particular upgrading a
ledger with 1800 used email units to the professional plan yields
`email.used = 0`, `email.limit = 25000`, status `normal`. -/
theorem resetAll_and_updatePlan_reset_usage (q : Quota) (newPlan : Plan)
    (newLimits : PlanLimits) (now : Nat) :
    ((resetAllQuotas q now).email.used = 0 ∧
     (resetAllQuotas q now).sms.used = 0 ∧
     (resetAllQuotas q now).api.used = 0 ∧
     (resetAllQuotas q now).status = .normal ∧
     (resetAllQuotas q now).email.resetDate = now + thirtyDaysMs ∧
     (resetAllQuotas q now).sms.resetDate = now + thirtyDaysMs ∧
     (resetAllQuotas q now).api.resetDate = now + thirtyDaysMs) ∧
    ((updatePlan q newPlan newLimits now).plan = newPlan ∧
     (updatePlan q newPlan newLimits now).email.limit = newLimits.email ∧
     (updatePlan q newPlan newLimits now).sms.limit = newLimits.sms ∧
     (updatePlan q newPlan newLimits now).api.limit = newLimits.api ∧
     (updatePlan q newPlan newLimits now).email.used = 0 ∧
     (updatePlan q newPlan newLimits now).sms.used = 0 ∧
     (updatePlan q newPlan newLimits now).api.used = 0 ∧
     (updatePlan q newPlan newLimits now).status = .normal) ∧
    ((updatePlan ⟨.free, ⟨1800, 2000, 0⟩, ⟨0, 0, 0⟩, ⟨0, 10000, 0⟩, .critical, 0⟩
        .professional ⟨25000, 5000, 200000⟩ 7).email.used = 0 ∧
     (updatePlan ⟨.free, ⟨1800, 2000, 0⟩, ⟨0, 0, 0⟩, ⟨0, 10000, 0⟩, .critical, 0⟩
        .professional ⟨25000, 5000, 200000⟩ 7).email.limit = 25000 ∧
     (updatePlan ⟨.free, ⟨1800, 2000, 0⟩, ⟨0, 0, 0⟩, ⟨0, 10000, 0⟩, .critical, 0⟩
        .professional ⟨25000, 5000, 200000⟩ 7).status = .normal) :=
  ⟨⟨rfl, rfl, rfl, rfl, rfl, rfl, rfl⟩,
   ⟨rfl, rfl, rfl, rfl, rfl, rfl, rfl, rfl⟩,
   ⟨rfl, rfl, rfl⟩⟩

/-- C3 (refuting evidence): `consumeQuota` is a read-then-write on the
ledger document, not an atomic conditional update, so two concurrent
`consumeQuota(type, 1)` calls on a bucket with exactly one unit of
remaining capacity (used 1999 of limit 2000) can BOTH succeed under the
interleaving read₁, read₂, write₁, write₂ — each call checks
`hasQuotaAvailable` against its own stale snapshot and saves.  Under the
serial interleaving read₁, write₁, read₂, write₂ the second call is
correctly rejected, so the overspend is caused precisely by the lost
update between the two calls. -/
theorem consume_race_both_succeed :
    ((runRace 2000 1999 [.read1, .read2, .write1, .write2]).res1 = some true ∧
     (runRace 2000 1999 [.read1, .read2, .write1, .write2]).res2 = some true ∧
     (runRace 2000 1999 [.read1, .read2, .write1, .write2]).used = 2000) ∧
    ((runRace 2000 1999 [.read1, .write1, .read2, .write2]).res1 = some true ∧
     (runRace 2000 1999 [.read1, .write1, .read2, .write2]).res2 = some false) := by
  decide

/-- C8 counterexample: an email still in the schema-default `pending`
state is NOT rejected by the open-tracking path: `markAsOpened` (as invoked
unconditionally by `POST /api/emails/:id/track/open`, which responds 200)
moves it straight from `pending` to `opened` and increments its open
counter, so an email can reach `opened` without ever being sent or
delivered. -/
theorem pending_email_opened_not_rejected :
    pendingEmail0.status = .pending ∧
    (trackOpenRoute pendingEmail0 5).2 = 200 ∧
    (trackOpenRoute pendingEmail0 5).1.status = .opened ∧
    (trackOpenRoute pendingEmail0 5).1.tracking.openCount = 1 ∧
    (pendingEmail0.markAsClicked 5).status = .clicked :=
  ⟨rfl, rfl, rfl, rfl, rfl⟩

/-- C8 (amended): `markAsOpened` and `markAsClicked` are unguarded: from
ANY current status (including `pending` and `sent`) they set the status to
`opened`/`clicked`, increment the corresponding counter and update the
last-opened/last-clicked timestamp, and the open-tracking route applies
`markAsOpened` unconditionally with a 200 response. -/
theorem markOpened_markClicked_unguarded (e : Email) (now : Nat) :
    ((e.markAsOpened now).status = .opened ∧
     (e.markAsOpened now).openedAt = some now ∧
     (e.markAsOpened now).tracking.openCount = e.tracking.openCount + 1 ∧
     (e.markAsOpened now).tracking.lastOpened = some now) ∧
    ((e.markAsClicked now).status = .clicked ∧
     (e.markAsClicked now).clickedAt = some now ∧
     (e.markAsClicked now).tracking.clickCount = e.tracking.clickCount + 1 ∧
     (e.markAsClicked now).tracking.lastClicked = some now) ∧
    trackOpenRoute e now = (e.markAsOpened now, 200) :=
  ⟨⟨rfl, rfl, rfl, rfl⟩, ⟨rfl, rfl, rfl, rfl⟩, rfl⟩

/-- C9 counterexample: the Email variant of `markAsSent` takes no provider
message id and records none — on a concrete pending email it changes only
`status` and `sentAt`, leaving the whole `tracking` sub-document (which has
no provider-id field at all) untouched, so the claim that BOTH variants
record the provider-assigned tracking id is false. -/
theorem email_markAsSent_records_no_tracking_id :
    pendingEmail0.markAsSent 7 =
      { pendingEmail0 with status := .sent, sentAt := some 7 } ∧
    (pendingEmail0.markAsSent 7).tracking = pendingEmail0.tracking :=
  ⟨rfl, rfl⟩

/-- C9 (amended): both variants of `markAsSent` set the status to `sent`
and stamp `sentAt`, and a second call is idempotent in effect (it
re-stamps `sentAt`, leaving the status `sent`); the SMS variant
additionally records the provider-assigned `messageId` and `sid`, while
the Email variant takes no provider id and records none (its `tracking`
sub-document is unchanged). -/
theorem markAsSent_variants_behavior (e : Email) (s : Sms)
    (mid sid mid2 sid2 : String) (t1 t2 : Nat) :
    ((e.markAsSent t1).status = .sent ∧
     (e.markAsSent t1).sentAt = some t1 ∧
     (e.markAsSent t1).tracking = e.tracking ∧
     (e.markAsSent t1).markAsSent t2 = e.markAsSent t2) ∧
    ((s.markAsSent mid sid t1).status = .sent ∧
     (s.markAsSent mid sid t1).sentAt = some t1 ∧
     (s.markAsSent mid sid t1).tracking.messageId = some mid ∧
     (s.markAsSent mid sid t1).tracking.sid = some sid ∧
     (s.markAsSent mid sid t1).markAsSent mid2 sid2 t2 =
       s.markAsSent mid2 sid2 t2) :=
  ⟨⟨rfl, rfl, rfl, rfl⟩, ⟨rfl, rfl, rfl, rfl, rfl⟩⟩

/-- C6: the send pipeline checks the quota before creating the Message:
whenever no email capacity remains the handler responds 429 and both the
ledger and the message store are returned unchanged; concretely, on a
free-plan ledger with 1999 of 2000 email units used, one send succeeds
(201) leaving `used = 2000` and ledger status `exceeded` with exactly one
Message created, and an immediately following second send is rejected with
the 429 quota response, creating no second Message and changing nothing. -/
theorem send_pipeline_checks_quota_first (quota : Quota) (msgs : List Email)
    (req : SendReq) (ok : Bool) (err : String) (now : Nat)
    (h : hasQuotaAvailable quota .email 1 = false) :
    sendEmailRoute quota msgs req ok err now = (.quotaExceeded, quota, msgs) ∧
    sendEmailRoute qFree1999 [] req0 true "x" 9 =
      (.created, qFree2000, [pendingEmail0.markAsSent 9]) ∧
    qFree2000.email.used = 2000 ∧
    qFree2000.status = .exceeded ∧
    sendEmailRoute qFree2000 [pendingEmail0.markAsSent 9] req0 true "x" 10 =
      (.quotaExceeded, qFree2000, [pendingEmail0.markAsSent 9]) := by
  have hq : consumeQuota qFree1999 .email 9 1 = .ok qFree2000 := by
    rw [consumeQuota_ok _ _ _ _ (by decide), overallStatus_char]
    rfl
  refine ⟨?_, ?_, rfl, rfl, ?_⟩
  · unfold sendEmailRoute
    rw [if_pos h]
  · unfold sendEmailRoute
    rw [if_neg (by decide : ¬ hasQuotaAvailable qFree1999 .email 1 = false), hq]
    rfl
  · unfold sendEmailRoute
    rw [if_pos (by decide : hasQuotaAvailable qFree2000 .email 1 = false)]

/-- C6 witness: the full ledger `qFree2000` has no email capacity, and the
send handler rejects with the 429 outcome leaving the state unchanged. -/
theorem send_pipeline_checks_quota_first_witness :
    hasQuotaAvailable qFree2000 .email 1 = false ∧
    sendEmailRoute qFree2000 [] req0 true "x" 10 = (.quotaExceeded, qFree2000, []) :=
  ⟨by decide,
    (send_pipeline_checks_quota_first qFree2000 [] req0 true "x" 10 (by decide)).1⟩

/-- C7: when the provider call fails during a send with available quota,
the handler responds with the 500 provider-failure outcome, the Message
remains persisted with `status = 'failed'` and its `errorMessage` set to
the provider error, and the quota unit consumed for the send is not
refunded — the ledger's `used` counter stays incremented. -/
theorem provider_failure_persists_and_no_refund (quota : Quota)
    (msgs : List Email) (req : SendReq) (err : String) (now : Nat)
    (h : hasQuotaAvailable quota .email 1 = true) :
    (sendEmailRoute quota msgs req false err now).1 = .providerFailed ∧
    (((sendEmailRoute quota msgs req false err now).2.1).get .email).used =
      (quota.get .email).used + 1 ∧
    (sendEmailRoute quota msgs req false err now).2.2 =
      msgs ++ [(mkPendingEmail req).markAsFailed err] ∧
    ((mkPendingEmail req).markAsFailed err).status = .failed ∧
    ((mkPendingEmail req).markAsFailed err).errorMessage = some err := by
  have hne : ¬ hasQuotaAvailable quota .email 1 = false := by
    rw [h]
    simp
  unfold sendEmailRoute
  rw [if_neg hne, consumeQuota_ok _ _ _ _ h]
  refine ⟨rfl, ?_, rfl, rfl, rfl⟩
  show ((Quota.addUsed quota .email 1).get .email).used = _
  rw [Quota.get_addUsed_self]

/-- C7 witness: on the nearly-full free-plan ledger a failing provider
still costs the quota unit and leaves a failed Message behind. -/
theorem provider_failure_persists_and_no_refund_witness :
    hasQuotaAvailable qFree1999 .email 1 = true ∧
    ((sendEmailRoute qFree1999 [] req0 false "boom" 9).1 = .providerFailed ∧
     (((sendEmailRoute qFree1999 [] req0 false "boom" 9).2.1).get .email).used =
       (qFree1999.get .email).used + 1 ∧
     (sendEmailRoute qFree1999 [] req0 false "boom" 9).2.2 =
       [] ++ [(mkPendingEmail req0).markAsFailed "boom"] ∧
     ((mkPendingEmail req0).markAsFailed "boom").status = .failed ∧
     ((mkPendingEmail req0).markAsFailed "boom").errorMessage = some "boom") :=
  ⟨by decide,
    provider_failure_persists_and_no_refund qFree1999 [] req0 "boom" 9 (by decide)⟩

end MarketingServer
